import Mathlib

/-!
Shallow embedding of the agent-scaffolding workflow of this repository:
the `create` workflow of `src/dev/src/cli/cli_create.ts`, the file utilities
(`src/unnamed/part_000`, a `file_utils` module) and the CLI routing layer
(`src/unnamed/part_001`).

Modelling conventions:

* Results of underlying operating-system calls (`fs.mkdir`, `fs.rm`,
  `fs.writeFile`, `execSync`, ...) are passed in explicitly as values of
  `FsOutcome` / `Except`; a caught-and-rethrown JS exception is an
  `Except.error`, a caught-and-swallowed one leaves `Except.ok`.
* JS string values that may be `undefined` are embedded as `""` where every
  use in the source is a truthiness test or an interpolation (on which
  `undefined` and `""` behave identically), and as `Option String` where the
  set/unset distinction matters (the `process.env` reads).
* The workflow's observable actions (prompts, folder operations, file writes,
  package-manager invocations, console output) are recorded as a list of
  `Event`s; `process.exit(n)` ends the run with `Outcome.exited n`.
* `path.join a b` is embedded as `a ++ "/" ++ b`: every path the workflow
  joins is a plain name with no separators or dot segments, on which
  `path.join` is exactly separator concatenation.
* Literal braces inside embedded template text are written with the
  escapes `\x7b` and `\x7d`.
-/

namespace AdkCreate

/-- Result of one underlying Node filesystem / process call as observed by a
wrapper: success, or an error value (the caught exception). -/
inductive FsOutcome where
  | success
  | failure (err : String)
deriving DecidableEq

/-- Result of one file-utility call: the `console.error` messages it printed
(only their template part; the appended exception object is not modelled) and
its outcome, where `Except.error` models a rejected promise (a rethrown
exception) and `Except.ok` a normal resolution. -/
structure UtilResult (α : Type) where
  log : List String
  result : Except String α

/-- file_utils.isFolderExists: `fs.access` succeeds means `true`; any failure
is caught and collapses to `false` (best effort, nothing logged, never
throws). -/
def isFolderExists (_folderPath : String) (fs : FsOutcome) : Bool :=
  match fs with
  | .success => true
  | .failure _ => false

/-- file_utils.createFolder: `fs.mkdir`; on failure the error is caught and
logged with the path, and the function still resolves normally — there is no
rethrow in the catch block. -/
def createFolder (folderPath : String) (fs : FsOutcome) : UtilResult Unit :=
  match fs with
  | .success => ⟨[], Except.ok ()⟩
  | .failure _ => ⟨["Failed to create folder " ++ folderPath], Except.ok ()⟩

/-- file_utils.removeFolder: `fs.rm(..., recursive)`; on failure the error is
caught and logged with the path, and the function still resolves normally —
there is no rethrow in the catch block. -/
def removeFolder (folderPath : String) (fs : FsOutcome) : UtilResult Unit :=
  match fs with
  | .success => ⟨[], Except.ok ()⟩
  | .failure _ => ⟨["Failed to remove folder " ++ folderPath], Except.ok ()⟩

/-- file_utils.listFiles: `fs.readdir`; `entries` is the directory listing the
call would produce on success. On failure the error is logged with the path
and the call degrades to the empty list. -/
def listFiles (folderPath : String) (fs : FsOutcome) (entries : List String) :
    UtilResult (List String) :=
  match fs with
  | .success => ⟨[], Except.ok entries⟩
  | .failure _ => ⟨["Failed to list files in folder " ++ folderPath], Except.ok []⟩

/-- file_utils.saveToFile with a string payload (the only payload the create
workflow passes): `fs.writeFile`; on failure the error is logged with the path
and rethrown (`throw e`), so the caller sees `Except.error`. -/
def saveToFile (filePath : String) (_data : String) (fs : FsOutcome) : UtilResult Unit :=
  match fs with
  | .success => ⟨[], Except.ok ()⟩
  | .failure e => ⟨["Failed to write file " ++ filePath ++ ":"], Except.error e⟩

/-- JS truthiness of a string-or-undefined value: defined and non-empty. -/
def truthy : Option String → Bool
  | none => false
  | some s => s != ""

/-- `String.prototype.trim` embedded over the character list: drop leading and
trailing whitespace. -/
def jsTrim (s : String) : String :=
  ⟨((s.data.dropWhile Char.isWhitespace).reverse.dropWhile Char.isWhitespace).reverse⟩

/-- cli_create.getGcpProject: if `process.env.GOOGLE_CLOUD_PROJECT` is truthy
it is returned; otherwise `gcloud config get-value project` is run
synchronously and its trimmed stdout returned, with a catch-all turning any
spawn failure (missing tool, non-zero exit) into `""`. The probe is a total
function: it never throws. -/
def getGcpProject (envProject : Option String) (gcloud : Except Unit String) : String :=
  if truthy envProject then envProject.getD ""
  else
    match gcloud with
    | .ok stdout => jsTrim stdout
    | .error _ => ""

/-- cli_create.getGcpRegion: if `process.env.GOOGLE_CLOUD_LOCATION` is truthy
it is returned; otherwise `gcloud config get-value compute/region` is run
synchronously and its trimmed stdout returned, with a catch-all turning any
spawn failure into `""`. The probe never throws. -/
def getGcpRegion (envLocation : Option String) (gcloud : Except Unit String) : String :=
  if truthy envLocation then envLocation.getD ""
  else
    match gcloud with
    | .ok stdout => jsTrim stdout
    | .error _ => ""

/-- cli_create's interface AgentCreationOptions. The CLI routing layer may
leave the optional fields `undefined`; every use of them in cli_create is a
truthiness test, a comparison with a non-empty literal, or an interpolation
after being (re)assigned, so absent values are embedded as `""` (and
an absent `forceYes` as `false`). -/
structure AgentCreationOptions where
  agentName : String
  forceYes : Bool
  model : String
  apiKey : String
  project : String
  region : String
  language : String
deriving DecidableEq

/-- cli_create.generateEnvFile before the final join: the `lines` array after
the four conditional pushes, in push order. -/
def envFileLines (options : AgentCreationOptions) : List String :=
  (if options.apiKey != "" then
    ["GOOGLE_API_KEY=" ++ options.apiKey, "GOOGLE_GENAI_USE_VERTEXAI=0"]
  else []) ++
  (if options.project != "" then ["GOOGLE_CLOUD_PROJECT=" ++ options.project] else []) ++
  (if options.region != "" then ["GOOGLE_CLOUD_LOCATION=" ++ options.region] else []) ++
  (if options.region != "" && options.project != "" then
    ["GOOGLE_GENAI_USE_VERTEXAI=1"]
  else [])

/-- cli_create.generateEnvFile: the pushed lines joined with newlines. -/
def generateEnvFile (options : AgentCreationOptions) : String :=
  String.intercalate "\n" (envFileLines options)

/-- cli_create.TS_CONFIG: the fixed tsconfig.json text (the source template
literal after `.trim()`). -/
def TS_CONFIG : String :=
  String.intercalate "\n" [
    "\x7b",
    "  \"compilerOptions\": \x7b",
    "    \"target\": \"esnext\",",
    "    \"module\": \"nodenext\",",
    "    \"rootDir\": \"./\",",
    "    \"outDir\": \"dist\",",
    "    \"allowUnreachableCode\": false,",
    "    \"allowUnusedLabels\": false,",
    "    \"declaration\": true,",
    "    \"declarationMap\": true,",
    "    \"esModuleInterop\": true,",
    "    \"exactOptionalPropertyTypes\": true,",
    "    \"noEmitOnError\": true,",
    "    \"noFallthroughCasesInSwitch\": true,",
    "    \"noImplicitReturns\": true,",
    "    \"noUncheckedIndexedAccess\": true,",
    "    \"pretty\": true,",
    "    \"skipLibCheck\": true,",
    "    \"sourceMap\": true,",
    "    \"strict\": true",
    "  \x7d",
    "\x7d"]

/-- cli_create.PACKAGE_JSON: the package.json text for the given agent name
and language extension (the source template literal after `.trim()`). -/
def PACKAGE_JSON (agentName : String) (language : String) : String :=
  String.intercalate "\n" [
    "\x7b",
    "  \"name\": \"" ++ agentName ++ "\",",
    "  \"version\": \"1.0.0\",",
    "  \"description\": \"\",",
    "  \"main\": \"agent." ++ language ++ "\",",
    "  \"scripts\": \x7b",
    "    \"web\": \"npx @google/adk-devtools web\",",
    "    \"cli\": \"npx @google/adk-devtools run agent." ++ language ++ "\"",
    "  \x7d,",
    "  \"keywords\": [],",
    "  \"author\": \"\",",
    "  \"license\": \"ISC\"",
    "\x7d"]

/-- cli_create.AGENT_TEMPLATE: the agent source stub for the given model id
(the source template literal after `.trim()`; the inner backtick template and
its escaped interpolation are literal text in the output). -/
def AGENT_TEMPLATE (model : String) : String :=
  String.intercalate "\n" [
    "import \x7bFunctionTool, LlmAgent\x7d from '@google/adk';",
    "import \x7bz\x7d from 'zod';",
    "import dotenv from 'dotenv';",
    "",
    "dotenv.config();",
    "",
    "/* Mock tool implementation */",
    "const getCurrentTime = new FunctionTool(\x7b",
    "  name: 'get_current_time',",
    "  description: 'Returns the current time in a specified city.',",
    "  parameters: z.object(\x7b",
    "    city: z.string().describe(\"The name of the city for which to retrieve the current time.\"),",
    "  \x7d),",
    "  execute: (\x7bcity\x7d) => \x7b",
    "    return \x7bstatus: 'success', report: `The current time in $\x7b city \x7d is 10: 30 AM`\x7d;",
    "  \x7d,",
    "\x7d);",
    "",
    "export const rootAgent = new LlmAgent(\x7b",
    "  name: 'hello_time_agent',",
    "  model: '" ++ model ++ "',",
    "  description: 'Tells the current time in a specified city.',",
    "  instruction: `You are a helpful assistant that tells the current time in a city.",
    "                Use the 'getCurrentTime' tool for this purpose.`,",
    "  tools: [getCurrentTime],",
    "\x7d);"]

/-- One observable action of the create workflow, in the order it happens. -/
inductive Event where
  | folderCheck (path : String)
  | folderCreate (path : String)
  | folderRemove (path : String)
  | promptSelect (message : String)
  | promptText (message : String)
  | fileWrite (path : String) (content : String)
  | execCmd (command : String) (cwd : String)
  | listDir (path : String)
  | consoleError (message : String)
  | consoleLog (message : String)
deriving DecidableEq

/-- How the workflow's process ends: it runs to completion, or some step calls
`process.exit(code)`. -/
inductive Outcome where
  | completed
  | exited (code : Nat)
deriving DecidableEq

/-- What a clack prompt yields when reached: the cancel symbol (user abort,
detected by `isCancel`) or an answer. -/
inductive PromptResult (α : Type) where
  | cancelled
  | answer (a : α)
deriving DecidableEq

/-- The surrounding world of one run: current directory, what the filesystem
and `gcloud` would answer, and what the user would answer at each prompt were
it reached. -/
structure WorldConfig where
  cwd : String
  accessOutcome : FsOutcome
  envProject : Option String
  envLocation : Option String
  gcloudProject : Except Unit String
  gcloudRegion : Except Unit String
  overwriteResponse : PromptResult Bool
  modelResponse : PromptResult String
  languageResponse : PromptResult String
  backendResponse : PromptResult String
  projectResponse : PromptResult String
  regionResponse : PromptResult String
  apiKeyResponse : PromptResult String
  listOutcome : FsOutcome
  dirEntries : List String

/-- Result of one workflow stage: the events it performed and either the value
it produced or the `process.exit` code it ended the process with. -/
inductive StepRes (α : Type) where
  | ok (events : List Event) (val : α)
  | exit (events : List Event) (code : Nat)

/-- cli_create.generateAgentFolder: create the folder when absent; otherwise
confirm the overwrite (forced to yes in force mode), exiting the process with
code 0 on prompt cancel or on an explicit decline (the latter after a
directory-exists diagnostic), and destroy-then-recreate on confirm. -/
def generateAgentFolder (agentDir : String) (forceYes : Bool) (w : WorldConfig) :
    StepRes Unit :=
  if !(isFolderExists agentDir w.accessOutcome) then
    .ok [Event.folderCheck agentDir, Event.folderCreate agentDir] ()
  else
    let promptEvents :=
      if forceYes then []
      else [Event.promptSelect ("Folder " ++ agentDir ++
        " already exists. Would you like to overwrite existing folder?")]
    let response : PromptResult Bool :=
      if forceYes then .answer true else w.overwriteResponse
    match response with
    | .cancelled => .exit (Event.folderCheck agentDir :: promptEvents) 0
    | .answer false =>
        .exit (Event.folderCheck agentDir :: promptEvents ++
          [Event.consoleError ("Agent directory " ++ agentDir ++ " already exists.")]) 0
    | .answer true =>
        .ok (Event.folderCheck agentDir :: promptEvents ++
          [Event.folderRemove agentDir, Event.folderCreate agentDir]) ()

/-- The model decision point of cli_create.createAgent: skipped when a model
is already set (truthy); force default `gemini-2.5-flash`; otherwise a select
prompt whose cancellation exits the process with code 0. -/
def resolveModel (options : AgentCreationOptions) (w : WorldConfig) :
    StepRes AgentCreationOptions :=
  if options.model != "" then .ok [] options
  else if options.forceYes then .ok [] { options with model := "gemini-2.5-flash" }
  else
    match w.modelResponse with
    | .cancelled => .exit [Event.promptSelect "Choose a model for the root agent"] 0
    | .answer m =>
        .ok [Event.promptSelect "Choose a model for the root agent"]
          { options with model := m }

/-- The language decision point of cli_create.createAgent: skipped when the
language is already `js` or `ts`; force default `ts`; otherwise a select
prompt whose cancellation exits the process with code 0. -/
def resolveLanguage (options : AgentCreationOptions) (w : WorldConfig) :
    StepRes AgentCreationOptions :=
  if options.language == "js" || options.language == "ts" then .ok [] options
  else if options.forceYes then .ok [] { options with language := "ts" }
  else
    match w.languageResponse with
    | .cancelled => .exit [Event.promptSelect "Choose a language for the agent"] 0
    | .answer l =>
        .ok [Event.promptSelect "Choose a language for the agent"]
          { options with language := l }

/-- The backend decision points of cli_create.createAgent: evaluated only when
neither apiKey nor project is truthy. Force default backend is `googleai`.
In the vertex branch the two probes supply defaults; the project text response
is stringified with `.toString()` BEFORE its `isCancel` check in the source,
so cancelling that prompt does not exit — the printed form of the cancel
symbol flows on as the project value — while cancelling the region or API-key
prompt exits the process with code 0. -/
def resolveBackend (options : AgentCreationOptions) (w : WorldConfig) :
    StepRes AgentCreationOptions :=
  if options.apiKey != "" || options.project != "" then .ok [] options
  else
    let backendStep : StepRes String :=
      if options.forceYes then .ok [] "googleai"
      else
        match w.backendResponse with
        | .cancelled => .exit [Event.promptSelect "Choose a backend"] 0
        | .answer b => .ok [Event.promptSelect "Choose a backend"] b
    match backendStep with
    | .exit ev c => .exit ev c
    | .ok ev b =>
      if b == "vertex" then
        let defaultProject := getGcpProject w.envProject w.gcloudProject
        let defaultRegion := getGcpRegion w.envLocation w.gcloudRegion
        let projectEvents :=
          if options.forceYes then []
          else [Event.promptText "Enter the Google Cloud Project ID"]
        let projectResponse : String :=
          if options.forceYes then defaultProject
          else
            match w.projectResponse with
            | .cancelled => "Symbol(clack:cancel)"
            | .answer s => s
        let options1 := { options with project := projectResponse }
        if options.forceYes then
          .ok (ev ++ projectEvents) { options1 with region := defaultRegion }
        else
          match w.regionResponse with
          | .cancelled =>
              .exit (ev ++ projectEvents ++
                [Event.promptText "Enter the Google Cloud Region"]) 0
          | .answer s =>
              .ok (ev ++ projectEvents ++
                [Event.promptText "Enter the Google Cloud Region"])
                { options1 with region := s }
      else
        if options.forceYes then .ok ev { options with apiKey := "" }
        else
          match w.apiKeyResponse with
          | .cancelled =>
              .exit (ev ++ [Event.promptText "Enter the Google API Key"]) 0
          | .answer s =>
              .ok (ev ++ [Event.promptText "Enter the Google API Key"])
                { options with apiKey := s }

/-- cli_create.generateFiles: the four candidate writes into
`<cwd>/<agentName>/` — agent source (model defaulting to `gemini-2.5-flash`
when still falsy), environment file, manifest, and, only for `ts`, the
type-checker config — in source order. -/
def generateFilesEvents (options : AgentCreationOptions) (cwd : String) : List Event :=
  let agentDir := cwd ++ "/" ++ options.agentName
  [Event.fileWrite (agentDir ++ "/" ++ ("agent." ++ options.language))
      (AGENT_TEMPLATE (if options.model != "" then options.model else "gemini-2.5-flash")),
   Event.fileWrite (agentDir ++ "/" ++ ".env") (generateEnvFile options),
   Event.fileWrite (agentDir ++ "/" ++ "package.json")
      (PACKAGE_JSON options.agentName options.language)] ++
  (if options.language == "ts" then
    [Event.fileWrite (agentDir ++ "/" ++ "tsconfig.json") TS_CONFIG]
  else [])

/-- The dependency-installation tail of cli_create.createAgent: for `ts` first
`npm install typescript --save-dev`, then in every case the single install of
the fixed runtime dependency set, both with the agent folder as working
directory. -/
def installEvents (options : AgentCreationOptions) (agentDir : String) : List Event :=
  (if options.language == "ts" then
    [Event.execCmd "npm install typescript --save-dev" agentDir]
  else []) ++
  [Event.execCmd "npm install @google/adk @google/adk-devtools zod@3.25.76 dotenv" agentDir]

/-- The summary tail of cli_create.createAgent: list the folder (through
file_utils.listFiles, whose failure degrades to an empty list after an error
log), print the created-files banner, one line per entry, and the follow-up
command. -/
def summaryEvents (options : AgentCreationOptions) (agentDir : String) (w : WorldConfig) :
    List Event :=
  let lf := listFiles agentDir w.listOutcome w.dirEntries
  let files := match lf.result with
    | Except.ok fs => fs
    | Except.error _ => []
  [Event.listDir agentDir] ++ lf.log.map Event.consoleError ++
  [Event.consoleLog ("\nCreated the following files in " ++ agentDir ++ ":")] ++
  files.map (fun file => Event.consoleLog ("  - " ++ file)) ++
  [Event.consoleLog ("Run 'cd " ++ options.agentName ++
    " && npm run web' to start the agent in a web interface")]

/-- One full run of the create workflow: its events, how the process ended,
and — when it ran to completion — the fully resolved option record that file
generation and installation used. -/
structure RunResult where
  events : List Event
  outcome : Outcome
  finalOptions : Option AgentCreationOptions

/-- cli_create.createAgent: folder resolution, then the model, language and
backend decision points in order, then file generation, dependency
installation and the summary report. A `process.exit` in any stage ends the
run there with that stage's events. -/
def createAgent (options : AgentCreationOptions) (w : WorldConfig) : RunResult :=
  let agentDir := w.cwd ++ "/" ++ options.agentName
  match generateAgentFolder agentDir options.forceYes w with
  | .exit ev c => ⟨ev, .exited c, none⟩
  | .ok ev0 _ =>
    match resolveModel options w with
    | .exit ev c => ⟨ev0 ++ ev, .exited c, none⟩
    | .ok ev1 options1 =>
      match resolveLanguage options1 w with
      | .exit ev c => ⟨ev0 ++ ev1 ++ ev, .exited c, none⟩
      | .ok ev2 options2 =>
        match resolveBackend options2 w with
        | .exit ev c => ⟨ev0 ++ ev1 ++ ev2 ++ ev, .exited c, none⟩
        | .ok ev3 options3 =>
          ⟨ev0 ++ ev1 ++ ev2 ++ ev3 ++ generateFilesEvents options3 w.cwd ++
            installEvents options3 agentDir ++ summaryEvents options3 agentDir w,
           .completed, some options3⟩

/-- The values commander parses for `program.command('create')`
(src/unnamed/part_001): one optional `--x <string>` value each for model,
api_key, project, region and language, `undefined` (`none`) when not passed.
The command declares no force/yes/non-interactive option at all. -/
structure CreateCliOptions where
  model : Option String
  api_key : Option String
  project : Option String
  region : Option String
  language : Option String
deriving DecidableEq

/-- The record the create command's action hands to createAgent, field by
field, with `Option` capturing JS definedness (`none` = `undefined`). The
interface AgentCreationOptions declares `forceYes: boolean` as required, but
the object literal at the call site omits it, so the delivered field is
`undefined`. -/
structure DeliveredCreateOptions where
  agentName : String
  forceYes : Option Bool
  model : Option String
  apiKey : Option String
  project : Option String
  region : Option String
  language : Option String
deriving DecidableEq

/-- The action handler of `program.command('create')` in src/unnamed/part_001:
builds the argument of createAgent from the positional agent name and the
parsed options. No `forceYes` appears in the object literal. -/
def createCommandAction (agentName : String) (options : CreateCliOptions) :
    DeliveredCreateOptions :=
  { agentName := agentName
    forceYes := none
    model := options.model
    apiKey := options.api_key
    project := options.project
    region := options.region
    language := options.language }

/-- The option record of the C1 counterexample: a pre-supplied API key,
project and region, all non-empty, as the CLI routing layer can deliver. -/
def exclusivityOptions : AgentCreationOptions :=
  ⟨"my_agent", false, "gemini-2.5-pro", "test-key", "acme", "us-central1", "js"⟩

/-- A world in which the target folder does not exist and everything else is
benign; no prompt is ever reached for `exclusivityOptions`. -/
def exclusivityWorld : WorldConfig :=
  ⟨"/home/u", FsOutcome.failure "ENOENT", none, none, Except.error (), Except.error (),
   PromptResult.answer true, PromptResult.answer "gemini-2.5-flash",
   PromptResult.answer "ts", PromptResult.answer "googleai",
   PromptResult.answer "p", PromptResult.answer "r", PromptResult.answer "k",
   FsOutcome.success, ["agent.js", ".env", "package.json"]⟩

/-- The events of either outcome of a stage. -/
def StepRes.events {α : Type} : StepRes α → List Event
  | .ok ev _ => ev
  | .exit ev _ => ev

/-- The paths of the file writes of an event list, in order. -/
def writePaths (events : List Event) : List String :=
  events.filterMap fun e =>
    match e with
    | .fileWrite p _ => some p
    | _ => none

/-- Whether an event is an invocation of the Interactive Prompt Adapter
(a clack select or text prompt). -/
def isPromptEvent : Event → Bool
  | .promptSelect _ => true
  | .promptText _ => true
  | _ => false

/-- Whether an event is an external package-manager invocation. -/
def isInstallEvent : Event → Bool
  | .execCmd _ _ => true
  | _ => false

/-- Whether an event is a destructive folder removal. -/
def isRemoveEvent : Event → Bool
  | .folderRemove _ => true
  | _ => false

/-- Whether an event is a file write. -/
def isWriteEvent : Event → Bool
  | .fileWrite _ _ => true
  | _ => false

/-- The Scenario D option record: project and region pre-supplied, no apiKey,
force mode, model and language left for the defaults. -/
def scenarioDOptions : AgentCreationOptions :=
  ⟨"my_agent", true, "", "", "acme", "us-central1", ""⟩

/-- A world whose target folder is absent and whose prompts would all be
cancelled: any run that never exits with code 0 on it reached no prompt. -/
def quietWorld : WorldConfig :=
  ⟨"/home/u", FsOutcome.failure "ENOENT", none, none, Except.error (), Except.error (),
   PromptResult.cancelled, PromptResult.cancelled, PromptResult.cancelled,
   PromptResult.cancelled, PromptResult.cancelled, PromptResult.cancelled,
   PromptResult.cancelled, FsOutcome.success, ["agent.ts", ".env"]⟩

/-- A world whose target folder exists and whose user answers No to the
overwrite confirmation. -/
def declineWorld : WorldConfig :=
  ⟨"/home/u", FsOutcome.success, none, none, Except.error (), Except.error (),
   PromptResult.answer false, PromptResult.cancelled, PromptResult.cancelled,
   PromptResult.cancelled, PromptResult.cancelled, PromptResult.cancelled,
   PromptResult.cancelled, FsOutcome.success, ["notes.txt"]⟩

/-- String append cancels on the left. -/
theorem string_append_left_cancel (a x y : String) (h : a ++ x = a ++ y) : x = y := by
  have h2 := congrArg String.data h
  rw [String.data_append, String.data_append] at h2
  have h3 := List.append_cancel_left h2
  cases x
  cases y
  simp_all

/-- Claim C2 counterexample: a folder-creation or folder-removal failure is
logged with the offending path but the error is swallowed, not propagated —
both wrappers resolve normally (`Except.ok ()`), contradicting the claim that
the error reaches the caller. -/
theorem folderError_swallowed_counterexample :
    (createFolder "/home/u/my_agent" (FsOutcome.failure "EACCES")).result = Except.ok () ∧
    (createFolder "/home/u/my_agent" (FsOutcome.failure "EACCES")).log =
      ["Failed to create folder /home/u/my_agent"] ∧
    (removeFolder "/home/u/my_agent" (FsOutcome.failure "EACCES")).result = Except.ok () ∧
    (removeFolder "/home/u/my_agent" (FsOutcome.failure "EACCES")).log =
      ["Failed to remove folder /home/u/my_agent"] :=
  ⟨rfl, rfl, rfl, rfl⟩

/-- Claim C2 (amended): an OS-level failure of folder creation or removal is
logged with the offending path and swallowed (the wrapper resolves normally);
a file-write failure is logged with the path and propagated to the caller;
the existence check degrades to `false` and the listing to the empty list. -/
theorem ioFailure_policy (p d e : String) (entries : List String) :
    (createFolder p (FsOutcome.failure e)).log = ["Failed to create folder " ++ p] ∧
    (createFolder p (FsOutcome.failure e)).result = Except.ok () ∧
    (removeFolder p (FsOutcome.failure e)).log = ["Failed to remove folder " ++ p] ∧
    (removeFolder p (FsOutcome.failure e)).result = Except.ok () ∧
    (saveToFile p d (FsOutcome.failure e)).log = ["Failed to write file " ++ p ++ ":"] ∧
    (saveToFile p d (FsOutcome.failure e)).result = Except.error e ∧
    isFolderExists p (FsOutcome.failure e) = false ∧
    (listFiles p (FsOutcome.failure e) entries).result = Except.ok [] :=
  ⟨rfl, rfl, rfl, rfl, rfl, rfl, rfl, rfl⟩

/-- Claim C5: the record the create command's action delivers to the workflow
carries the agent name and the optional model, credential/project/region and
language values, but its `forceYes` field is `undefined` — the object literal
omits the non-interactive flag the interface requires, and the command
declares no force option at all, so no invocation can supply one. -/
theorem createAction_omits_force_flag :
    (createCommandAction "my_agent"
      ⟨some "gemini-2.5-pro", none, some "acme", none, some "ts"⟩).forceYes = none ∧
    createCommandAction "my_agent"
      ⟨some "gemini-2.5-pro", none, some "acme", none, some "ts"⟩ =
      ⟨"my_agent", none, some "gemini-2.5-pro", none, some "acme", none, some "ts"⟩ :=
  ⟨rfl, rfl⟩

/-- Claim C9 counterexample: with `GOOGLE_CLOUD_PROJECT` set to the empty
string the probe does not return it — the truthiness test treats the set
variable as absent, the configuration command runs, and its trimmed output is
returned instead. -/
theorem probe_emptyEnv_counterexample :
    getGcpProject (some "") (Except.ok "my-project\n") = "my-project" ∧
    getGcpProject (some "") (Except.ok "my-project\n") ≠ "" := by
  constructor
  · rfl
  · decide

/-- Claim C9 (amended): for each probe, an environment variable set to a
non-empty value is returned as is; when the variable is unset or set to the
empty string the cloud-configuration command is invoked and its trimmed
standard output returned; and on any invocation failure the probe returns the
empty string. Each probe is a total function, so it never throws. -/
theorem gcpProbe_behaviour (v s : String) (c : Except Unit String) :
    (v ≠ "" → getGcpProject (some v) c = v ∧ getGcpRegion (some v) c = v) ∧
    (getGcpProject none (Except.ok s) = jsTrim s ∧
     getGcpRegion none (Except.ok s) = jsTrim s) ∧
    (getGcpProject (some "") (Except.ok s) = jsTrim s ∧
     getGcpRegion (some "") (Except.ok s) = jsTrim s) ∧
    (getGcpProject none (Except.error ()) = "" ∧
     getGcpRegion none (Except.error ()) = "") ∧
    (getGcpProject (some "") (Except.error ()) = "" ∧
     getGcpRegion (some "") (Except.error ()) = "") := by
  refine ⟨fun h => ?_, ⟨rfl, rfl⟩, ⟨rfl, rfl⟩, ⟨rfl, rfl⟩, ⟨rfl, rfl⟩⟩
  unfold getGcpProject getGcpRegion truthy
  simp [h]

/-- Claim C9 witness: the amended probe contract applied at a concrete
non-empty environment value. -/
theorem gcpProbe_behaviour_witness :
    getGcpProject (some "acme") (Except.error ()) = "acme" ∧
    getGcpRegion (some "acme") (Except.error ()) = "acme" :=
  (gcpProbe_behaviour "acme" "x" (Except.error ())).1 (by decide)

/-- A direct-key line is never the hosted-mode flag line, whatever the key. -/
theorem keyLine_ne_hostedFlag (k : String) :
    "GOOGLE_API_KEY=" ++ k ≠ "GOOGLE_GENAI_USE_VERTEXAI=1" := by
  intro h
  have h2 := congrArg String.data h
  rw [String.data_append] at h2
  simp at h2

/-- A project identifier line is never the hosted-mode flag line. -/
theorem projectLine_ne_hostedFlag (p : String) :
    "GOOGLE_CLOUD_PROJECT=" ++ p ≠ "GOOGLE_GENAI_USE_VERTEXAI=1" := by
  intro h
  have h2 := congrArg String.data h
  rw [String.data_append] at h2
  simp at h2

/-- A region identifier line is never the hosted-mode flag line. -/
theorem locationLine_ne_hostedFlag (r : String) :
    "GOOGLE_CLOUD_LOCATION=" ++ r ≠ "GOOGLE_GENAI_USE_VERTEXAI=1" := by
  intro h
  have h2 := congrArg String.data h
  rw [String.data_append] at h2
  simp at h2

/-- A direct-key line is never a project identifier line. -/
theorem keyLine_ne_projectLine (k p : String) :
    "GOOGLE_API_KEY=" ++ k ≠ "GOOGLE_CLOUD_PROJECT=" ++ p := by
  intro h
  have h2 := congrArg String.data h
  rw [String.data_append, String.data_append] at h2
  simp at h2

/-- A direct-key line is never a region identifier line. -/
theorem keyLine_ne_locationLine (k r : String) :
    "GOOGLE_API_KEY=" ++ k ≠ "GOOGLE_CLOUD_LOCATION=" ++ r := by
  intro h
  have h2 := congrArg String.data h
  rw [String.data_append, String.data_append] at h2
  simp at h2

/-- The bare key prefix (an empty key's line) is never a project line. -/
theorem litKey_ne_projectLine (p : String) :
    "GOOGLE_API_KEY=" ≠ "GOOGLE_CLOUD_PROJECT=" ++ p := by
  intro h
  have h2 := congrArg String.data h
  rw [String.data_append] at h2
  simp at h2

/-- The bare key prefix (an empty key's line) is never a region line. -/
theorem litKey_ne_locationLine (r : String) :
    "GOOGLE_API_KEY=" ≠ "GOOGLE_CLOUD_LOCATION=" ++ r := by
  intro h
  have h2 := congrArg String.data h
  rw [String.data_append] at h2
  simp at h2

/-- The hosted-mode flag line is never a direct-key line. -/
theorem hostedFlag_ne_keyLine (k : String) :
    "GOOGLE_GENAI_USE_VERTEXAI=1" ≠ "GOOGLE_API_KEY=" ++ k := by
  intro h
  have h2 := congrArg String.data h
  rw [String.data_append] at h2
  simp at h2

/-- The hosted-mode flag line is never a project identifier line. -/
theorem hostedFlag_ne_projectLine (p : String) :
    "GOOGLE_GENAI_USE_VERTEXAI=1" ≠ "GOOGLE_CLOUD_PROJECT=" ++ p := by
  intro h
  have h2 := congrArg String.data h
  rw [String.data_append] at h2
  simp at h2

/-- The hosted-mode flag line is never a region identifier line. -/
theorem hostedFlag_ne_locationLine (r : String) :
    "GOOGLE_GENAI_USE_VERTEXAI=1" ≠ "GOOGLE_CLOUD_LOCATION=" ++ r := by
  intro h
  have h2 := congrArg String.data h
  rw [String.data_append] at h2
  simp at h2

/-- Claim C10: the hosted-mode flag line is emitted iff both project and
region are non-empty, and a record with exactly one of the two set gets the
corresponding identifier line without the flag line. -/
theorem envFile_hostedFlag_iff (options : AgentCreationOptions) :
    ("GOOGLE_GENAI_USE_VERTEXAI=1" ∈ envFileLines options ↔
      (options.project ≠ "" ∧ options.region ≠ "")) ∧
    (options.project ≠ "" → options.region = "" →
      "GOOGLE_CLOUD_PROJECT=" ++ options.project ∈ envFileLines options ∧
      "GOOGLE_GENAI_USE_VERTEXAI=1" ∉ envFileLines options) ∧
    (options.region ≠ "" → options.project = "" →
      "GOOGLE_CLOUD_LOCATION=" ++ options.region ∈ envFileLines options ∧
      "GOOGLE_GENAI_USE_VERTEXAI=1" ∉ envFileLines options) := by
  unfold envFileLines
  by_cases hk : options.apiKey = "" <;>
    by_cases hp : options.project = "" <;>
      by_cases hr : options.region = "" <;>
        simp [hk, hp, hr, keyLine_ne_hostedFlag, projectLine_ne_hostedFlag,
          locationLine_ne_hostedFlag, Ne.symm (keyLine_ne_hostedFlag options.apiKey),
          Ne.symm (projectLine_ne_hostedFlag options.project),
          Ne.symm (locationLine_ne_hostedFlag options.region)]

/-- Claim C10 witness: the hosted-flag characterization applied to a concrete
record with a project but no region. -/
theorem envFile_hostedFlag_iff_witness :
    "GOOGLE_CLOUD_PROJECT=acme" ∈
      envFileLines ⟨"my_agent", true, "", "", "acme", "", ""⟩ ∧
    "GOOGLE_GENAI_USE_VERTEXAI=1" ∉
      envFileLines ⟨"my_agent", true, "", "", "acme", "", ""⟩ :=
  (envFile_hostedFlag_iff ⟨"my_agent", true, "", "", "acme", "", ""⟩).2.1
    (by decide) (by decide)

/-- Claim C1 counterexample: a record with apiKey, project and region all
non-empty reaches file generation (the run completes), and its generated
`.env` contains both the direct-key line and the hosted-mode-enabled line. -/
theorem envFile_exclusivity_counterexample :
    (createAgent exclusivityOptions exclusivityWorld).outcome = Outcome.completed ∧
    Event.fileWrite "/home/u/my_agent/.env" (generateEnvFile exclusivityOptions) ∈
      (createAgent exclusivityOptions exclusivityWorld).events ∧
    "GOOGLE_API_KEY=test-key" ∈ envFileLines exclusivityOptions ∧
    "GOOGLE_GENAI_USE_VERTEXAI=1" ∈ envFileLines exclusivityOptions ∧
    generateEnvFile exclusivityOptions =
      "GOOGLE_API_KEY=test-key\nGOOGLE_GENAI_USE_VERTEXAI=0\n" ++
      "GOOGLE_CLOUD_PROJECT=acme\nGOOGLE_CLOUD_LOCATION=us-central1\n" ++
      "GOOGLE_GENAI_USE_VERTEXAI=1" := by
  refine ⟨rfl, ?_, ?_, ?_, rfl⟩ <;> decide

/-- Claim C1 (amended): the generated `.env` contains both a direct-key line
and the hosted-mode-enabled line exactly when apiKey, project and region are
all non-empty; for every other record — in particular every record produced
by the interactive or forced backend flow, which never fills both sides — at
most one backend mode is reflected. -/
theorem envFile_mode_exclusivity (options : AgentCreationOptions) :
    ("GOOGLE_API_KEY=" ++ options.apiKey ∈ envFileLines options ∧
     "GOOGLE_GENAI_USE_VERTEXAI=1" ∈ envFileLines options) ↔
    (options.apiKey ≠ "" ∧ options.project ≠ "" ∧ options.region ≠ "") := by
  unfold envFileLines
  by_cases hk : options.apiKey = "" <;>
    by_cases hp : options.project = "" <;>
      by_cases hr : options.region = "" <;>
        simp [hk, hp, hr, keyLine_ne_hostedFlag, projectLine_ne_hostedFlag,
          locationLine_ne_hostedFlag, keyLine_ne_projectLine, keyLine_ne_locationLine,
          litKey_ne_projectLine, litKey_ne_locationLine, hostedFlag_ne_keyLine,
          hostedFlag_ne_projectLine, hostedFlag_ne_locationLine]

/-- Appending different suffixes to one prefix yields different strings. -/
theorem pathJoin_ne (a : String) {x y : String} (h : x ≠ y) : a ++ x ≠ a ++ y :=
  fun hc => h (string_append_left_cancel a x y hc)

/-- The agent source name is never the environment file name. -/
theorem agentExt_ne_env (lang : String) : "agent." ++ lang ≠ ".env" := by
  intro h
  have h2 := congrArg String.data h
  rw [String.data_append] at h2
  simp at h2

/-- The agent source name is never the manifest name. -/
theorem agentExt_ne_package (lang : String) : "agent." ++ lang ≠ "package.json" := by
  intro h
  have h2 := congrArg String.data h
  rw [String.data_append] at h2
  simp at h2

/-- The agent source name is never the type-checker config name. -/
theorem agentExt_ne_tsconfig (lang : String) : "agent." ++ lang ≠ "tsconfig.json" := by
  intro h
  have h2 := congrArg String.data h
  rw [String.data_append] at h2
  simp at h2

/-- The type-checker config name is never the agent source name. -/
theorem tsconfig_ne_agentExt (lang : String) : "tsconfig.json" ≠ "agent." ++ lang := by
  intro h
  have h2 := congrArg String.data h
  rw [String.data_append] at h2
  simp at h2

/-- Claim C6: file generation writes each candidate file exactly once, in the
order agent source, environment file, manifest, type-checker config; the
first three are unconditional and the type-checker config is written iff the
language variant is `ts`. -/
theorem generateFiles_each_once_ordered (options : AgentCreationOptions) (cwd : String) :
    writePaths (generateFilesEvents options cwd) =
      [cwd ++ "/" ++ options.agentName ++ "/" ++ ("agent." ++ options.language),
       cwd ++ "/" ++ options.agentName ++ "/" ++ ".env",
       cwd ++ "/" ++ options.agentName ++ "/" ++ "package.json"] ++
      (if options.language = "ts" then
        [cwd ++ "/" ++ options.agentName ++ "/" ++ "tsconfig.json"]
      else []) ∧
    (writePaths (generateFilesEvents options cwd)).Nodup ∧
    (cwd ++ "/" ++ options.agentName ++ "/" ++ "tsconfig.json" ∈
        writePaths (generateFilesEvents options cwd) ↔ options.language = "ts") := by
  by_cases hl : options.language = "ts" <;>
    simp [writePaths, generateFilesEvents, hl, List.nodup_cons,
      pathJoin_ne (cwd ++ "/" ++ options.agentName ++ "/"),
      agentExt_ne_env, agentExt_ne_package, agentExt_ne_tsconfig, tsconfig_ne_agentExt]

/-- In force mode the folder resolver never prompts and never exits: it
creates a fresh folder or silently overwrites. -/
theorem generateAgentFolder_force (dir : String) (w : WorldConfig) :
    ∃ ev, generateAgentFolder dir true w = .ok ev () ∧
      ∀ e ∈ ev, isPromptEvent e = false := by
  unfold generateAgentFolder
  cases hx : isFolderExists dir w.accessOutcome
  · exact ⟨[Event.folderCheck dir, Event.folderCreate dir], by simp [hx],
      by simp [isPromptEvent]⟩
  · exact ⟨[Event.folderCheck dir, Event.folderRemove dir, Event.folderCreate dir],
      by simp [hx], by simp [isPromptEvent]⟩

/-- In force mode the model decision point emits no events and keeps force
mode on. -/
theorem resolveModel_force (options : AgentCreationOptions) (w : WorldConfig)
    (h : options.forceYes = true) :
    ∃ o, resolveModel options w = .ok [] o ∧ o.forceYes = true := by
  unfold resolveModel
  cases hm : options.model != ""
  · exact ⟨{ options with model := "gemini-2.5-flash" }, by simp [hm, h], h⟩
  · exact ⟨options, by simp [hm], h⟩

/-- In force mode the language decision point emits no events and keeps force
mode on. -/
theorem resolveLanguage_force (options : AgentCreationOptions) (w : WorldConfig)
    (h : options.forceYes = true) :
    ∃ o, resolveLanguage options w = .ok [] o ∧ o.forceYes = true := by
  unfold resolveLanguage
  cases hm : (options.language == "js" || options.language == "ts")
  · exact ⟨{ options with language := "ts" }, by simp [hm, h], h⟩
  · exact ⟨options, by simp [hm], h⟩

/-- In force mode the backend decision points emit no events and keep force
mode on. -/
theorem resolveBackend_force (options : AgentCreationOptions) (w : WorldConfig)
    (h : options.forceYes = true) :
    ∃ o, resolveBackend options w = .ok [] o ∧ o.forceYes = true := by
  unfold resolveBackend
  cases hc : (options.apiKey != "" || options.project != "")
  · exact ⟨{ options with apiKey := "" }, by simp [hc, h], h⟩
  · exact ⟨options, by simp [hc], h⟩

/-- File generation performs file writes only, never a prompt. -/
theorem generateFilesEvents_no_prompt (options : AgentCreationOptions) (cwd : String) :
    ∀ e ∈ generateFilesEvents options cwd, isPromptEvent e = false := by
  intro e he
  unfold generateFilesEvents at he
  cases hl : (options.language == "ts") <;> simp [hl] at he
  · rcases he with hw | hw | hw <;> subst hw <;> rfl
  · rcases he with hw | hw | hw | hw <;> subst hw <;> rfl

/-- Dependency installation performs external invocations only, never a
prompt. -/
theorem installEvents_no_prompt (options : AgentCreationOptions) (dir : String) :
    ∀ e ∈ installEvents options dir, isPromptEvent e = false := by
  intro e he
  unfold installEvents at he
  cases hl : (options.language == "ts") <;> simp [hl] at he
  · subst he; rfl
  · rcases he with hw | hw <;> subst hw <;> rfl

/-- The summary report lists and logs, it never prompts. -/
theorem summaryEvents_no_prompt (options : AgentCreationOptions) (dir : String)
    (w : WorldConfig) :
    ∀ e ∈ summaryEvents options dir w, isPromptEvent e = false := by
  intro e he
  unfold summaryEvents at he
  simp at he
  rcases he with hw | ⟨a, ha, hw⟩ | hw | ⟨m, hm2, hw⟩ | hw <;> subst hw <;> rfl

/-- Claim C4: with `forceYes` set, no execution path of the workflow ever
invokes the Interactive Prompt Adapter — the run's event trace holds no
select and no text prompt, whatever the world answers would have been. -/
theorem forceYes_no_prompts (options : AgentCreationOptions) (w : WorldConfig)
    (h : options.forceYes = true) :
    ∀ e ∈ (createAgent options w).events, isPromptEvent e = false := by
  obtain ⟨evA, hA, hAp⟩ := generateAgentFolder_force (w.cwd ++ "/" ++ options.agentName) w
  obtain ⟨o1, h1, hf1⟩ := resolveModel_force options w h
  obtain ⟨o2, h2, hf2⟩ := resolveLanguage_force o1 w hf1
  obtain ⟨o3, h3, hf3⟩ := resolveBackend_force o2 w hf2
  intro e he
  unfold createAgent at he
  rw [h] at he
  simp only [hA, h1, h2, h3] at he
  simp at he
  rcases he with he | he | he | he
  · exact hAp e he
  · exact generateFilesEvents_no_prompt o3 w.cwd e he
  · exact installEvents_no_prompt o3 (w.cwd ++ "/" ++ options.agentName) e he
  · exact summaryEvents_no_prompt o3 (w.cwd ++ "/" ++ options.agentName) w e he

/-- Claim C4 witness: a concrete force-mode run in a world whose prompts would
all be cancelled never touches a prompt. -/
theorem forceYes_no_prompts_witness :
    ((createAgent ⟨"my_agent", true, "", "", "", "", ""⟩ quietWorld).events.all
      (fun e => !isPromptEvent e)) = true := by
  rw [List.all_eq_true]
  intro e he
  simp [forceYes_no_prompts ⟨"my_agent", true, "", "", "", "", ""⟩ quietWorld rfl e he]

/-- Claim C8: when the target directory exists, force mode is off and the
user declines the overwrite prompt, the process prints the directory-exists
diagnostic and exits with the neutral code 0, and the run performs no folder
removal and no file write at all. -/
theorem decline_overwrite_aborts (options : AgentCreationOptions) (w : WorldConfig)
    (hf : options.forceYes = false)
    (hx : w.accessOutcome = FsOutcome.success)
    (hd : w.overwriteResponse = PromptResult.answer false) :
    (createAgent options w).outcome = Outcome.exited 0 ∧
    Event.consoleError ("Agent directory " ++ (w.cwd ++ "/" ++ options.agentName) ++
      " already exists.") ∈ (createAgent options w).events ∧
    ∀ e ∈ (createAgent options w).events,
      isRemoveEvent e = false ∧ isWriteEvent e = false := by
  have hA : generateAgentFolder (w.cwd ++ "/" ++ options.agentName) options.forceYes w =
      .exit [Event.folderCheck (w.cwd ++ "/" ++ options.agentName),
        Event.promptSelect ("Folder " ++ (w.cwd ++ "/" ++ options.agentName) ++
          " already exists. Would you like to overwrite existing folder?"),
        Event.consoleError ("Agent directory " ++ (w.cwd ++ "/" ++ options.agentName) ++
          " already exists.")] 0 := by
    unfold generateAgentFolder
    simp [hf, hx, hd, isFolderExists]
  unfold createAgent
  simp only [hA]
  simp [isRemoveEvent, isWriteEvent]

/-- Claim C8 witness: a concrete declined overwrite in a world whose target
folder exists. -/
theorem decline_overwrite_aborts_witness :
    (createAgent ⟨"my_agent", false, "", "", "", "", ""⟩ declineWorld).outcome =
      Outcome.exited 0 ∧
    Event.consoleError "Agent directory /home/u/my_agent already exists." ∈
      (createAgent ⟨"my_agent", false, "", "", "", "", ""⟩ declineWorld).events ∧
    ∀ e ∈ (createAgent ⟨"my_agent", false, "", "", "", "", ""⟩ declineWorld).events,
      isRemoveEvent e = false ∧ isWriteEvent e = false :=
  decline_overwrite_aborts ⟨"my_agent", false, "", "", "", "", ""⟩ declineWorld rfl rfl rfl

/-- The folder resolver never invokes the package manager. -/
theorem generateAgentFolder_no_exec (dir : String) (fy : Bool) (w : WorldConfig) :
    ∀ e ∈ (generateAgentFolder dir fy w).events, isInstallEvent e = false := by
  unfold generateAgentFolder
  cases hx : isFolderExists dir w.accessOutcome <;> cases fy <;>
    cases hr : w.overwriteResponse <;>
      simp [StepRes.events, isInstallEvent]
  all_goals (rename_i b; cases b <;> simp [StepRes.events, isInstallEvent])

/-- The model decision point never invokes the package manager. -/
theorem resolveModel_no_exec (options : AgentCreationOptions) (w : WorldConfig) :
    ∀ e ∈ (resolveModel options w).events, isInstallEvent e = false := by
  unfold resolveModel
  cases hm : options.model != "" <;> cases hf : options.forceYes <;>
    cases hr : w.modelResponse <;> simp [StepRes.events, isInstallEvent]

/-- The language decision point never invokes the package manager. -/
theorem resolveLanguage_no_exec (options : AgentCreationOptions) (w : WorldConfig) :
    ∀ e ∈ (resolveLanguage options w).events, isInstallEvent e = false := by
  unfold resolveLanguage
  cases hm : (options.language == "js" || options.language == "ts") <;>
    cases hf : options.forceYes <;>
      cases hr : w.languageResponse <;> simp [StepRes.events, isInstallEvent]

/-- The backend decision points never invoke the package manager. -/
theorem resolveBackend_no_exec (options : AgentCreationOptions) (w : WorldConfig) :
    ∀ e ∈ (resolveBackend options w).events, isInstallEvent e = false := by
  unfold resolveBackend
  cases hc : (options.apiKey != "" || options.project != "")
  case true => simp [StepRes.events, isInstallEvent]
  case false =>
    cases hf : options.forceYes
    · cases hr : w.backendResponse
      · simp [StepRes.events, isInstallEvent]
      · rename_i b
        cases hb : (b == "vertex") <;> cases hp : w.projectResponse <;>
          cases hrr : w.regionResponse <;> cases hk : w.apiKeyResponse <;>
            simp [StepRes.events, isInstallEvent, hb]
    · simp [StepRes.events, isInstallEvent]

/-- File generation never invokes the package manager. -/
theorem generateFilesEvents_no_exec (options : AgentCreationOptions) (cwd : String) :
    ∀ e ∈ generateFilesEvents options cwd, isInstallEvent e = false := by
  unfold generateFilesEvents
  cases hl : (options.language == "ts") <;> simp [hl, isInstallEvent]

/-- The summary report never invokes the package manager. -/
theorem summaryEvents_no_exec (options : AgentCreationOptions) (dir : String)
    (w : WorldConfig) :
    ∀ e ∈ summaryEvents options dir w, isInstallEvent e = false := by
  intro e he
  unfold summaryEvents at he
  simp at he
  rcases he with hw | ⟨a, ha, hw⟩ | hw | ⟨m, hm2, hw⟩ | hw <;> subst hw <;> rfl

/-- Claim C7: every run that completes (and so reaches dependency
installation) invokes the main install of the fixed runtime dependency set
exactly once, with the working directory set to the target folder, preceded —
exactly when the resolved language is typed — by the one development-only
type-checker install, and no other package-manager invocation occurs. -/
theorem installer_contract (options : AgentCreationOptions) (w : WorldConfig)
    (final : AgentCreationOptions)
    (h : (createAgent options w).finalOptions = some final) :
    ∃ pre post,
      (createAgent options w).events =
        pre ++
        ((if final.language = "ts" then
            [Event.execCmd "npm install typescript --save-dev"
              (w.cwd ++ "/" ++ options.agentName)]
          else []) ++
         [Event.execCmd "npm install @google/adk @google/adk-devtools zod@3.25.76 dotenv"
            (w.cwd ++ "/" ++ options.agentName)]) ++ post ∧
      (∀ e ∈ pre, isInstallEvent e = false) ∧
      (∀ e ∈ post, isInstallEvent e = false) := by
  unfold createAgent at h ⊢
  cases hA : generateAgentFolder (w.cwd ++ "/" ++ options.agentName) options.forceYes w with
  | exit ev c => simp only [hA] at h; simp at h
  | ok evA u =>
    simp only [hA] at h ⊢
    cases hB : resolveModel options w with
    | exit ev c => simp only [hB] at h; simp at h
    | ok evB o1 =>
      simp only [hB] at h ⊢
      cases hC : resolveLanguage o1 w with
      | exit ev c => simp only [hC] at h; simp at h
      | ok evC o2 =>
        simp only [hC] at h ⊢
        cases hD : resolveBackend o2 w with
        | exit ev c => simp only [hD] at h; simp at h
        | ok evD o3 =>
          simp only [hD] at h ⊢
          simp at h ⊢
          subst h
          refine ⟨evA ++ evB ++ evC ++ evD ++ generateFilesEvents o3 w.cwd,
            summaryEvents o3 (w.cwd ++ "/" ++ options.agentName) w, ?_, ?_, ?_⟩
          · by_cases hl : o3.language = "ts" <;>
              simp [installEvents, hl, List.append_assoc]
          · intro e he
            simp at he
            rcases he with he | he | he | he | he
            · have hlem := generateAgentFolder_no_exec
                (w.cwd ++ "/" ++ options.agentName) options.forceYes w
              rw [hA] at hlem
              exact hlem e he
            · have hlem := resolveModel_no_exec options w
              rw [hB] at hlem
              exact hlem e he
            · have hlem := resolveLanguage_no_exec o1 w
              rw [hC] at hlem
              exact hlem e he
            · have hlem := resolveBackend_no_exec o2 w
              rw [hD] at hlem
              exact hlem e he
            · exact generateFilesEvents_no_exec o3 w.cwd e he
          · exact summaryEvents_no_exec o3 (w.cwd ++ "/" ++ options.agentName) w

/-- Claim C7 witness: the installer contract at a concrete completed force
run, whose resolved language is the typed default. -/
theorem installer_contract_witness :
    ∃ pre post,
      (createAgent ⟨"my_agent", true, "", "", "", "", ""⟩ quietWorld).events =
        pre ++
        ((if ("ts" : String) = "ts" then
            [Event.execCmd "npm install typescript --save-dev"
              (quietWorld.cwd ++ "/" ++ "my_agent")]
          else []) ++
         [Event.execCmd "npm install @google/adk @google/adk-devtools zod@3.25.76 dotenv"
            (quietWorld.cwd ++ "/" ++ "my_agent")]) ++ post ∧
      (∀ e ∈ pre, isInstallEvent e = false) ∧
      (∀ e ∈ post, isInstallEvent e = false) :=
  installer_contract ⟨"my_agent", true, "", "", "", "", ""⟩ quietWorld
    ⟨"my_agent", true, "gemini-2.5-flash", "", "", "", "ts"⟩ (by decide)

/-- Claim C3: for the Scenario D record (project `acme`, region
`us-central1`, empty apiKey, force mode) the generated `.env` is exactly the
three lines `GOOGLE_CLOUD_PROJECT=acme`, `GOOGLE_CLOUD_LOCATION=us-central1`
and `GOOGLE_GENAI_USE_VERTEXAI=1`, in that order, with no `GOOGLE_API_KEY`
line: in every world the run writes the environment file with exactly that
content and writes nothing else to that path. -/
theorem scenarioD_envFile (w : WorldConfig) :
    envFileLines scenarioDOptions =
      ["GOOGLE_CLOUD_PROJECT=acme", "GOOGLE_CLOUD_LOCATION=us-central1",
       "GOOGLE_GENAI_USE_VERTEXAI=1"] ∧
    Event.fileWrite (w.cwd ++ "/" ++ "my_agent" ++ "/" ++ ".env")
      "GOOGLE_CLOUD_PROJECT=acme\nGOOGLE_CLOUD_LOCATION=us-central1\nGOOGLE_GENAI_USE_VERTEXAI=1"
      ∈ (createAgent scenarioDOptions w).events ∧
    ∀ c, Event.fileWrite (w.cwd ++ "/" ++ "my_agent" ++ "/" ++ ".env") c ∈
        (createAgent scenarioDOptions w).events →
      c = "GOOGLE_CLOUD_PROJECT=acme\nGOOGLE_CLOUD_LOCATION=us-central1\nGOOGLE_GENAI_USE_VERTEXAI=1" := by
  have hcontent : generateEnvFile ⟨"my_agent", true, "gemini-2.5-flash", "", "acme", "us-central1", "ts"⟩ =
      "GOOGLE_CLOUD_PROJECT=acme\nGOOGLE_CLOUD_LOCATION=us-central1\nGOOGLE_GENAI_USE_VERTEXAI=1" := by
    decide
  refine ⟨by decide, ?_, ?_⟩
  · unfold createAgent
    cases hacc : w.accessOutcome <;>
      simp [scenarioDOptions, generateAgentFolder, isFolderExists, hacc,
        resolveModel, resolveLanguage, resolveBackend, generateFilesEvents,
        installEvents, summaryEvents, hcontent]
  · intro c hc
    unfold createAgent at hc
    cases hacc : w.accessOutcome <;>
      simp [scenarioDOptions, generateAgentFolder, isFolderExists, hacc,
        resolveModel, resolveLanguage, resolveBackend, generateFilesEvents,
        installEvents, summaryEvents, hcontent] at hc <;>
      (rcases hc with ⟨hp, _⟩ | hc | ⟨hp, _⟩ | ⟨hp, _⟩
       · exact absurd (string_append_left_cancel _ _ _ hp) (by decide)
       · exact hc
       · exact absurd (string_append_left_cancel _ _ _ hp) (by decide)
       · exact absurd (string_append_left_cancel _ _ _ hp) (by decide))

end AdkCreate
